import Mathlib

/-!
Verification of the guarded SQL execution path of the ppm-variance-agent
repository: a shallow embedding of `src/sql_tool.py` (the function
`execute_sql_function`) and of the `Database` class in `src/database.py`
(`connect`, `disconnect`, `execute_query`, `execute_non_query`,
`execute_script`), together with theorems about the guard, the outcome
shapes, error conversion and the transaction behaviour.

Python strings are modelled as `List Char`; `str.strip`, `str.upper`,
`str.startswith` and `str.split(";")` are embedded below.  The MySQL driver
(pymysql) is an oracle (`Driver`) saying whether the handshake succeeds and
what each statement execution returns; committed database state is the list
of statements flushed by `commit`, with `pending` the statements executed in
the current open transaction (the connection runs with autocommit=False).
Exceptions are `Except.error` carrying the exception's message string.
-/

/-- A Python string, as its list of characters. -/
abbrev PyStr := List Char

/-- A driver-reported scalar value in a result row. -/
inductive SqlValue where
  | intV : Int → SqlValue
  | strV : String → SqlValue
  | nullV : SqlValue
deriving DecidableEq, Repr

/-- One result row: a mapping from column name to value, as produced by
pymysql's DictCursor. -/
abbrev Row := List (String × SqlValue)

/-- Python `str.strip()` (over the whitespace characters the claims need). -/
def pyStrip (s : PyStr) : PyStr :=
  ((s.dropWhile Char.isWhitespace).reverse.dropWhile Char.isWhitespace).reverse

/-- Python `str.upper()` (ASCII case folding, all the guard compares). -/
def pyUpper (s : PyStr) : PyStr :=
  s.map Char.toUpper

/-- Python `str.split(c)`: `"".split(c) = [""]`, empty fragments kept. -/
def splitOnChar (c : Char) : PyStr → List PyStr
  | [] => [[]]
  | x :: xs =>
    let r := splitOnChar c xs
    if x = c then [] :: r
    else
      match r with
      | [] => [[x]]
      | h :: t => (x :: h) :: t

/-- The pymysql driver as an oracle: whether `pymysql.connect` succeeds (and
with what message it fails), and what `cursor.execute` does on each
statement — for a read query, rows or a driver `Error` message; for any
statement, a rowcount or a driver `Error` message. -/
structure Driver where
  connectOk : Bool
  connectErrMsg : String
  query : PyStr → Except String (List Row)
  exec : PyStr → Except String Nat

/-- A `Database` instance: only the connection slot matters
(`self.conn : Optional[pymysql.Connection]`). -/
structure Database where
  conn : Option Unit
deriving DecidableEq, Repr

/-- Server-side transactional state for one connection: `committed` is the
durably committed statement sequence, `pending` the statements executed in
the open transaction and not yet committed (autocommit=False). -/
structure DbState where
  committed : List PyStr
  pending : List PyStr
deriving DecidableEq, Repr

/-- The message of the `ConnectionError` raised by `Database.connect`. -/
def connFailMsg (d : Driver) : String :=
  "Failed to connect to database: " ++ d.connectErrMsg

/-- `Database.connect`: `self.conn = pymysql.connect(**params)`; on driver
failure raises `ConnectionError(f"Failed to connect ...")` leaving
`self.conn` unchanged. -/
def Database.connect (d : Driver) (_db : Database) : Except String Database :=
  if d.connectOk then Except.ok { conn := some () }
  else Except.error (connFailMsg d)

/-- `Database.disconnect`: closes the connection if one is open and clears
the slot.  The second component counts how many `close()` calls were made. -/
def Database.disconnect (db : Database) : Database × Nat :=
  match db.conn with
  | some _ => ({ conn := none }, 1)
  | none => (db, 0)

/-- `Database.execute_query`: lazily connects if `self.conn` is None (a
handshake failure raises the `ConnectionError` uncaught, since
`except Error` only catches pymysql errors), runs the query, returns all
rows, and wraps a driver `Error` as
`RuntimeError(f"Query execution failed: ...")`.  No commit, no rollback. -/
def Database.execute_query (d : Driver) (db : Database) (q : PyStr) :
    Except String (List Row) × Database :=
  match db.conn with
  | none =>
    match Database.connect d db with
    | Except.error m => (Except.error m, db)
    | Except.ok db' =>
      match d.query q with
      | Except.ok rs => (Except.ok rs, db')
      | Except.error m => (Except.error ("Query execution failed: " ++ m), db')
  | some _ =>
    match d.query q with
    | Except.ok rs => (Except.ok rs, db)
    | Except.error m => (Except.error ("Query execution failed: " ++ m), db)

/-- `Database.execute_non_query`: lazily connects, executes the statement,
reads `cursor.rowcount`, commits (flushing the whole open transaction) and
returns the rowcount; on a driver `Error` rolls back (discarding the whole
open transaction) and raises `RuntimeError(f"Query execution failed: ...")`. -/
def Database.execute_non_query (d : Driver) (db : Database) (st : DbState)
    (q : PyStr) : Except String Nat × Database × DbState :=
  match db.conn with
  | none =>
    match Database.connect d db with
    | Except.error m => (Except.error m, db, st)
    | Except.ok db' =>
      match d.exec q with
      | Except.ok n =>
        (Except.ok n, db',
          { committed := st.committed ++ (st.pending ++ [q]), pending := [] })
      | Except.error m =>
        (Except.error ("Query execution failed: " ++ m), db',
          { committed := st.committed, pending := [] })
  | some _ =>
    match d.exec q with
    | Except.ok n =>
      (Except.ok n, db,
        { committed := st.committed ++ (st.pending ++ [q]), pending := [] })
    | Except.error m =>
      (Except.error ("Query execution failed: " ++ m), db,
        { committed := st.committed, pending := [] })

/-- The statement loop of `Database.execute_script`: execute each fragment
in order, extending the open transaction, stopping at the first driver
`Error` (whose message it returns). -/
def runStmts (d : Driver) (pending : List PyStr) :
    List PyStr → Except String (List PyStr)
  | [] => Except.ok pending
  | s :: rest =>
    match d.exec s with
    | Except.ok _ => runStmts d (pending ++ [s]) rest
    | Except.error m => Except.error m

/-- The fragment list of `Database.execute_script`:
`[s.strip() for s in script.split(";") if s.strip()]`. -/
def scriptFragments (script : PyStr) : List PyStr :=
  ((splitOnChar ';' script).map pyStrip).filter (fun f => !f.isEmpty)

/-- `Database.execute_script`: lazily connects, splits the script on
semicolons, strips each fragment and drops the whitespace-only ones, runs
the fragments in order, commits once after the last, and on any driver
`Error` rolls back the whole open transaction and raises
`RuntimeError(f"Script execution failed: ...")`. -/
def Database.execute_script (d : Driver) (db : Database) (st : DbState)
    (script : PyStr) : Except String Unit × Database × DbState :=
  match db.conn with
  | none =>
    match Database.connect d db with
    | Except.error m => (Except.error m, db, st)
    | Except.ok db' =>
      match runStmts d st.pending (scriptFragments script) with
      | Except.ok p =>
        (Except.ok (), db', { committed := st.committed ++ p, pending := [] })
      | Except.error m =>
        (Except.error ("Script execution failed: " ++ m), db',
          { committed := st.committed, pending := [] })
  | some _ =>
    match runStmts d st.pending (scriptFragments script) with
    | Except.ok p =>
      (Except.ok (), db, { committed := st.committed ++ p, pending := [] })
    | Except.error m =>
      (Except.error ("Script execution failed: " ++ m), db,
        { committed := st.committed, pending := [] })

/-- The dictionary returned by `execute_sql_function`.  An `Option` field
set to `none` models the key being absent from the returned dict. -/
structure Outcome where
  success : Option Bool
  results : Option (List Row)
  row_count : Option Nat
  error : Option String
  sql_query : PyStr
deriving DecidableEq, Repr

/-- The dict of the success branch:
`{"success": True, "results": rs, "row_count": len(rs), "sql_query": q}`. -/
def successOutcome (rs : List Row) (q : PyStr) : Outcome :=
  { success := some true, results := some rs, row_count := some rs.length,
    error := none, sql_query := q }

/-- The dict of the `except Exception` branch:
`{"success": False, "error": str(e), "sql_query": q}`. -/
def exnOutcome (m : String) (q : PyStr) : Outcome :=
  { success := some false, results := none, row_count := none,
    error := some m, sql_query := q }

/-- The dict of the rejected-validation branch — note: no "success" key:
`{"error": "Only SELECT queries are allowed. ...", "sql_query": q}`. -/
def valErrOutcome (q : PyStr) : Outcome :=
  { success := none, results := none, row_count := none,
    error := some "Only SELECT queries are allowed. Security check failed.",
    sql_query := q }

/-- The guard of `execute_sql_function`:
`sql_query.strip().upper().startswith("SELECT")`. -/
def selectGuard (q : PyStr) : Bool :=
  List.isPrefixOf ("SELECT".toList) (pyUpper (pyStrip q))

/-- What `execute_sql_function` did besides returning: whether `Database()`
was constructed, and the queries it passed to `db.execute_query`. -/
structure Trace where
  dbConstructed : Bool
  forwarded : List PyStr
deriving DecidableEq, Repr

/-- `execute_sql_function` with its access trace.  The body runs under
`try ... except Exception`: the guard failure returns the error dict
directly; otherwise a fresh `Database()` is constructed and
`db.execute_query(sql_query)` is called, any exception from it (connection
or execution) being converted to the `success=False` error dict. -/
def execute_sql_function_t (d : Driver) (q : PyStr) : Outcome × Trace :=
  if selectGuard q then
    let db : Database := { conn := none }
    match Database.execute_query d db q with
    | (Except.ok rs, _) =>
      (successOutcome rs q, { dbConstructed := true, forwarded := [q] })
    | (Except.error m, _) =>
      (exnOutcome m q, { dbConstructed := true, forwarded := [q] })
  else
    (valErrOutcome q, { dbConstructed := false, forwarded := [] })

/-- `execute_sql_function`: the returned dictionary. -/
def execute_sql_function (d : Driver) (q : PyStr) : Outcome :=
  (execute_sql_function_t d q).1

/-! ### Concrete drivers used as witnesses and counterexample inputs -/

/-- A driver whose handshake succeeds and that answers every statement
with an empty result set / zero affected rows. -/
def dOk : Driver :=
  { connectOk := true, connectErrMsg := "",
    query := fun _ => Except.ok [], exec := fun _ => Except.ok 0 }

/-- A driver whose handshake fails (database unreachable). -/
def dConnFail : Driver :=
  { connectOk := false, connectErrMsg := "boom",
    query := fun _ => Except.ok [], exec := fun _ => Except.ok 0 }

/-- A driver that connects but reports a driver `Error` on every statement. -/
def dQueryFail : Driver :=
  { connectOk := true, connectErrMsg := "",
    query := fun _ => Except.error "syntax error",
    exec := fun _ => Except.error "syntax error" }

/-- The database layer raised on this call: either the handshake fails or
the driver reports an `Error` for the query. -/
def dbLayerFails (d : Driver) (q : PyStr) : Prop :=
  d.connectOk = false ∨ ∃ m, d.query q = Except.error m

/-- The first driver `Error` message hit when executing the statements in
order, if any. -/
def firstErr (d : Driver) : List PyStr → Option String
  | [] => none
  | s :: rest =>
    match d.exec s with
    | Except.ok _ => firstErr d rest
    | Except.error m => some m

/-! ### Supporting lemmas -/

lemma prefixed_ne_empty (p m : String) (hp : p.length ≠ 0) : p ++ m ≠ "" := by
  intro h
  have h2 := congrArg String.length h
  simp [String.length_append] at h2
  exact hp h2.1

lemma runStmts_of_firstErr_none (d : Driver) (l p : List PyStr)
    (h : firstErr d l = none) : runStmts d p l = Except.ok (p ++ l) := by
  induction l generalizing p with
  | nil => simp [runStmts]
  | cons s rest ih =>
    unfold firstErr at h
    unfold runStmts
    cases hs : d.exec s with
    | ok n =>
      rw [hs] at h
      simp only [hs]
      rw [ih (p ++ [s]) h]
      simp
    | error m => rw [hs] at h; simp at h

lemma runStmts_of_firstErr_some (d : Driver) (l p : List PyStr) (m : String)
    (h : firstErr d l = some m) : runStmts d p l = Except.error m := by
  induction l generalizing p with
  | nil => simp [firstErr] at h
  | cons s rest ih =>
    unfold firstErr at h
    unfold runStmts
    cases hs : d.exec s with
    | ok n =>
      rw [hs] at h
      simp only [hs]
      exact ih (p ++ [s]) h
    | error m2 => rw [hs] at h; simp at h; simp [hs, h]

/-! ### Claims -/

/-- Claim C1: for every input whose trimmed, case-folded text does not
start with "SELECT", `execute_sql_function` returns the validation error
dictionary (it does not raise), no `Database` instance is constructed and
no query is forwarded to the database layer. -/
theorem guard_reject_no_db_access (d : Driver) (q : PyStr)
    (h : selectGuard q = false) :
    execute_sql_function_t d q
      = (valErrOutcome q, { dbConstructed := false, forwarded := [] }) := by
  simp [execute_sql_function_t, h]

theorem guard_reject_no_db_access_witness :
    selectGuard ("DELETE FROM departments".toList) = false ∧
    execute_sql_function_t dOk ("DELETE FROM departments".toList)
      = (valErrOutcome ("DELETE FROM departments".toList),
         { dbConstructed := false, forwarded := [] }) :=
  ⟨by decide, guard_reject_no_db_access dOk ("DELETE FROM departments".toList) (by decide)⟩

/-- Claim C2: the guarded executor never lets a database-layer failure
propagate — whenever the guard passes and the database layer raises (failed
handshake or driver `Error` on the query), `execute_sql_function` returns
the caught-exception dictionary `success=False` with a non-empty error
message.  (The embedding of `execute_sql_function` is a total function into
`Outcome`, reflecting that the body runs under `except Exception` and every
branch returns a dictionary.) -/
theorem db_failure_caught (d : Driver) (q : PyStr)
    (hg : selectGuard q = true) (hf : dbLayerFails d q) :
    ∃ m, execute_sql_function d q = exnOutcome m q ∧ m ≠ "" := by
  unfold execute_sql_function execute_sql_function_t
  simp only [hg, if_true]
  unfold Database.execute_query Database.connect
  cases hc : d.connectOk with
  | false =>
    refine ⟨connFailMsg d, ?_, ?_⟩
    · simp [hc]
    · exact prefixed_ne_empty "Failed to connect to database: " d.connectErrMsg (by decide)
  | true =>
    rcases hf with hf | ⟨m, hm⟩
    · rw [hc] at hf; cases hf
    · refine ⟨"Query execution failed: " ++ m, ?_, ?_⟩
      · simp [hc, hm]
      · exact prefixed_ne_empty "Query execution failed: " m (by decide)

theorem db_failure_caught_witness :
    selectGuard ("SELECT 1".toList) = true ∧
    dbLayerFails dConnFail ("SELECT 1".toList) ∧
    ∃ m, execute_sql_function dConnFail ("SELECT 1".toList)
        = exnOutcome m ("SELECT 1".toList) ∧ m ≠ "" :=
  ⟨by decide, Or.inl (by decide),
    db_failure_caught dConnFail ("SELECT 1".toList) (by decide) (Or.inl (by decide))⟩

/-- Claim C3 counterexample: the claim says every error outcome carries
`success=false`, but the validation-rejection branch returns
`{"error": ..., "sql_query": ...}` with no "success" key at all: on the
rejected input "DELETE FROM departments" the outcome has an error message
yet its success field is absent, not `false`. -/
theorem validation_error_lacks_success_field :
    (execute_sql_function dOk ("DELETE FROM departments".toList)).error ≠ none ∧
    (execute_sql_function dOk ("DELETE FROM departments".toList)).success ≠ some false := by
  decide

/-- Claim C3 as amended: every outcome of `execute_sql_function` has exactly
one of three shapes — the success record
`{success=True, results, row_count=len(results), sql_query}`, the
caught-exception record `{success=False, error, sql_query}`, or the
validation-rejection record `{error, sql_query}` which omits the success
key; on every branch exactly one of the results field and the error field
is present, and the caught-exception record (but not the
validation-rejection record) carries `success=False`. -/
theorem outcome_shapes (d : Driver) (q : PyStr) :
    ((∃ rs, execute_sql_function d q = successOutcome rs q) ∨
     (∃ m, execute_sql_function d q = exnOutcome m q) ∨
     execute_sql_function d q = valErrOutcome q) ∧
    (execute_sql_function d q).results.isSome
      = !(execute_sql_function d q).error.isSome := by
  unfold execute_sql_function execute_sql_function_t
  cases hg : selectGuard q with
  | false =>
    rw [if_neg (by simp [hg])]
    exact ⟨Or.inr (Or.inr rfl), by simp [valErrOutcome]⟩
  | true =>
    rw [if_pos (by simp [hg])]
    rcases h : Database.execute_query d { conn := none } q with ⟨res, db2⟩
    cases res with
    | ok rs =>
      simp only [h]
      exact ⟨Or.inl ⟨rs, rfl⟩, by simp [successOutcome]⟩
    | error m =>
      simp only [h]
      exact ⟨Or.inr (Or.inl ⟨m, rfl⟩), by simp [exnOutcome]⟩

/-- Claim C4: when the guard passes, the handshake succeeds and the driver
returns a row list without error, `execute_sql_function` returns the
success record whose `row_count` equals the length of the rows; in
particular an empty result set gives
`success=True, results=[], row_count=0`, not an error. -/
theorem select_success_row_count (d : Driver) (q : PyStr) (rs : List Row)
    (hg : selectGuard q = true) (hc : d.connectOk = true)
    (hq : d.query q = Except.ok rs) :
    execute_sql_function d q = successOutcome rs q ∧
    (execute_sql_function d q).row_count = some rs.length ∧
    (execute_sql_function d q).error = none := by
  have h : execute_sql_function d q = successOutcome rs q := by
    unfold execute_sql_function execute_sql_function_t
    simp only [hg, if_true]
    unfold Database.execute_query Database.connect
    simp [hc, hq]
  exact ⟨h, by simp [h, successOutcome], by simp [h, successOutcome]⟩

theorem select_success_row_count_witness :
    selectGuard ("SELECT 1".toList) = true ∧
    dOk.connectOk = true ∧
    dOk.query ("SELECT 1".toList) = Except.ok [] ∧
    (execute_sql_function dOk ("SELECT 1".toList)
        = successOutcome [] ("SELECT 1".toList) ∧
      (execute_sql_function dOk ("SELECT 1".toList)).row_count = some 0 ∧
      (execute_sql_function dOk ("SELECT 1".toList)).error = none) :=
  ⟨by decide, rfl, rfl,
    select_success_row_count dOk ("SELECT 1".toList) [] (by decide) rfl rfl⟩

/-- Claim C5: "SELECT 1; DROP TABLE departments;" passes the prefix guard,
and every string whose trimmed upper-cased form starts with "SELECT" is
accepted and forwarded to the database layer's `execute_query` (as the sole
forwarded query), regardless of semicolon-delimited secondary statements. -/
theorem select_prefix_forwards_multistatement (d : Driver) (q : PyStr)
    (hg : selectGuard q = true) :
    (execute_sql_function_t d q).2
        = { dbConstructed := true, forwarded := [q] } ∧
    selectGuard ("SELECT 1; DROP TABLE departments;".toList) = true := by
  refine ⟨?_, by decide⟩
  unfold execute_sql_function_t
  simp only [hg, if_true]
  rcases h : Database.execute_query d { conn := none } q with ⟨res, db2⟩
  cases res <;> simp [h]

theorem select_prefix_forwards_multistatement_witness :
    selectGuard ("SELECT 1; DROP TABLE departments;".toList) = true ∧
    (execute_sql_function_t dOk ("SELECT 1; DROP TABLE departments;".toList)).2
        = { dbConstructed := true,
            forwarded := ["SELECT 1; DROP TABLE departments;".toList] } :=
  ⟨by decide,
    (select_prefix_forwards_multistatement dOk
      ("SELECT 1; DROP TABLE departments;".toList) (by decide)).1⟩

/-- Claim C6: `execute_script` splits the script on semicolons, discards
whitespace-only fragments (`scriptFragments`), runs the remaining fragments
in order in one transaction, commits once after the last fragment succeeds
(the final state's committed list is extended by the whole open
transaction, pending cleared), and on the first driver failure rolls the
entire transaction back (committed state unchanged, pending cleared) and
raises `RuntimeError("Script execution failed: ...")`. -/
theorem execute_script_transactional (d : Driver) (db : Database)
    (st : DbState) (script : PyStr)
    (hc : db.conn = some () ∨ d.connectOk = true) :
    (firstErr d (scriptFragments script) = none →
      Database.execute_script d db st script
        = (Except.ok (), ({ conn := some () } : Database),
           { committed := st.committed ++ (st.pending ++ scriptFragments script),
             pending := [] })) ∧
    (∀ m, firstErr d (scriptFragments script) = some m →
      Database.execute_script d db st script
        = (Except.error ("Script execution failed: " ++ m),
           ({ conn := some () } : Database),
           { committed := st.committed, pending := [] })) := by
  cases db with
  | mk c =>
    cases c with
    | none =>
      have hconn : d.connectOk = true := by
        rcases hc with h | h
        · simp at h
        · exact h
      constructor
      · intro h
        simp [Database.execute_script, Database.connect, hconn,
          runStmts_of_firstErr_none d _ st.pending h]
      · intro m h
        simp [Database.execute_script, Database.connect, hconn,
          runStmts_of_firstErr_some d _ st.pending m h]
    | some u =>
      cases u
      constructor
      · intro h
        simp [Database.execute_script,
          runStmts_of_firstErr_none d _ st.pending h]
      · intro m h
        simp [Database.execute_script,
          runStmts_of_firstErr_some d _ st.pending m h]

theorem execute_script_transactional_witness :
    ((({ conn := none } : Database).conn = some ()) ∨ dOk.connectOk = true) ∧
    firstErr dOk (scriptFragments ("CREATE TABLE t (x INT); INSERT INTO t VALUES (1); ".toList)) = none ∧
    Database.execute_script dOk { conn := none } { committed := [], pending := [] }
        ("CREATE TABLE t (x INT); INSERT INTO t VALUES (1); ".toList)
      = (Except.ok (), ({ conn := some () } : Database),
         { committed := scriptFragments
             ("CREATE TABLE t (x INT); INSERT INTO t VALUES (1); ".toList),
           pending := [] }) :=
  ⟨Or.inr rfl, by decide,
    (execute_script_transactional dOk { conn := none }
      { committed := [], pending := [] }
      ("CREATE TABLE t (x INT); INSERT INTO t VALUES (1); ".toList)
      (Or.inr rfl)).1 (by decide)⟩

/-- Claim C7: `execute_non_query` commits the open transaction (the
statement included) and returns the driver-reported affected row count when
the driver reports success; when the driver reports an error it rolls the
open transaction back — the committed state is left unchanged — and raises
`RuntimeError("Query execution failed: ...")`. -/
theorem execute_non_query_commit_or_rollback (d : Driver) (db : Database)
    (st : DbState) (q : PyStr)
    (hc : db.conn = some () ∨ d.connectOk = true) :
    (∀ n, d.exec q = Except.ok n →
      Database.execute_non_query d db st q
        = (Except.ok n, ({ conn := some () } : Database),
           { committed := st.committed ++ (st.pending ++ [q]),
             pending := [] })) ∧
    (∀ m, d.exec q = Except.error m →
      Database.execute_non_query d db st q
        = (Except.error ("Query execution failed: " ++ m),
           ({ conn := some () } : Database),
           { committed := st.committed, pending := [] })) := by
  cases db with
  | mk c =>
    cases c with
    | none =>
      have hconn : d.connectOk = true := by
        rcases hc with h | h
        · simp at h
        · exact h
      constructor
      · intro n h
        simp [Database.execute_non_query, Database.connect, hconn, h]
      · intro m h
        simp [Database.execute_non_query, Database.connect, hconn, h]
    | some u =>
      cases u
      constructor
      · intro n h
        simp [Database.execute_non_query, h]
      · intro m h
        simp [Database.execute_non_query, h]

theorem execute_non_query_commit_or_rollback_witness :
    ((({ conn := none } : Database).conn = some ()) ∨ dOk.connectOk = true) ∧
    dOk.exec ("UPDATE t SET x = 1".toList) = Except.ok 0 ∧
    Database.execute_non_query dOk { conn := none }
        { committed := [], pending := [] } ("UPDATE t SET x = 1".toList)
      = (Except.ok 0, ({ conn := some () } : Database),
         { committed := ["UPDATE t SET x = 1".toList], pending := [] }) :=
  ⟨Or.inr rfl, rfl,
    (execute_non_query_commit_or_rollback dOk { conn := none }
      { committed := [], pending := [] } ("UPDATE t SET x = 1".toList)
      (Or.inr rfl)).1 0 rfl⟩

/-- Claim C8: `disconnect` closes the connection if open and leaves the
instance unconnected; on an already-unconnected instance it is a no-op
that performs no `close()` call and does not raise, and a second
`disconnect` after a first one equals the first one's result. -/
theorem disconnect_idempotent (db : Database) :
    ((Database.disconnect db).1).conn = none ∧
    Database.disconnect (Database.disconnect db).1
      = ((Database.disconnect db).1, 0) ∧
    (db.conn = none → Database.disconnect db = (db, 0)) := by
  cases db with
  | mk c => cases c <;> simp [Database.disconnect]

theorem disconnect_idempotent_witness :
    (({ conn := none } : Database).conn = none) ∧
    Database.disconnect { conn := none } = (({ conn := none } : Database), 0) :=
  ⟨rfl, (disconnect_idempotent { conn := none }).2.2 rfl⟩

/-- Claim C9: the guard is a pure six-character prefix test with no token
boundary check — every string whose trimmed, upper-cased form begins with
the characters "SELECT" is accepted and forwarded to the database layer,
including "SELECTION x FROM t" and "selectx". -/
theorem select_guard_no_token_boundary (d : Driver) (q : PyStr)
    (h : List.isPrefixOf ("SELECT".toList) (pyUpper (pyStrip q)) = true) :
    (execute_sql_function_t d q).2
        = { dbConstructed := true, forwarded := [q] } ∧
    selectGuard ("SELECTION x FROM t".toList) = true ∧
    selectGuard ("selectx".toList) = true := by
  refine ⟨?_, by decide, by decide⟩
  have hg : selectGuard q = true := h
  unfold execute_sql_function_t
  simp only [hg, if_true]
  rcases hq : Database.execute_query d { conn := none } q with ⟨res, db2⟩
  cases res <;> simp [hq]

theorem select_guard_no_token_boundary_witness :
    List.isPrefixOf ("SELECT".toList)
        (pyUpper (pyStrip ("SELECTION x FROM t".toList))) = true ∧
    (execute_sql_function_t dOk ("SELECTION x FROM t".toList)).2
        = { dbConstructed := true, forwarded := ["SELECTION x FROM t".toList] } :=
  ⟨by decide,
    (select_guard_no_token_boundary dOk ("SELECTION x FROM t".toList)
      (by decide)).1⟩

/-- Claim C10: on every branch — validation rejection, success, caught
exception — the returned dictionary binds "sql_query" to the original
input string exactly as received, untouched by the trimming and
case-folding done for validation. -/
theorem sql_query_preserved (d : Driver) (q : PyStr) :
    (execute_sql_function d q).sql_query = q := by
  unfold execute_sql_function execute_sql_function_t
  cases hg : selectGuard q with
  | false =>
    rw [if_neg (by simp [hg])]
    rfl
  | true =>
    rw [if_pos (by simp [hg])]
    rcases hq : Database.execute_query d { conn := none } q with ⟨res, db2⟩
    cases res <;> simp [hq, successOutcome, exnOutcome]
